import Mathlib

/-
  Verification development for the kaicloudnote repository.

  The repository contains three request handlers for a personal note service:
  - functions/worker.js        : Pages-Functions style handler over a KV store
  - unnamed/part_000           : standard-worker style handler over the same KV store
  - functions/api/notes.js     : two handlers (a Pages Function `onRequest` and a
                                 standard worker `handleRequest`/`fetch`) over a
                                 relational (D1) table

  The embedding below translates each handler into a pure Lean function.
  JavaScript values appearing in request bodies and stored rows are modelled by
  `JsVal`; the absent value (JS `undefined`) is modelled by `Option`.
  Backend state is a pair of the stored data and a log of backend operations,
  so that theorems can speak about which backend operations a request performs.
  A thrown JavaScript exception is modelled by the `Except.error` branch.
-/

namespace NotesSpec

/-- A JSON-ish JavaScript value, as it occurs in request bodies and stored cells. -/
inductive JsVal
  | jstr (s : String)
  | jnum (n : Nat)
  | jbool (b : Bool)
  | jnull
deriving DecidableEq, Repr

/-- JavaScript truthiness of a `JsVal`. -/
def jsTruthy : JsVal → Bool
  | .jstr s => !(s == "")
  | .jnum n => !(n == 0)
  | .jbool b => b
  | .jnull => false

/-- JavaScript `a ?? b` (nullish coalescing) where `a` may be absent (`undefined`). -/
def jsNullish (v : Option JsVal) (d : JsVal) : JsVal :=
  match v with
  | none => d
  | some .jnull => d
  | some x => x

/-- JavaScript `a || b` where `a` may be absent: falls back to `d` on falsy `a`. -/
def jsOrElse (v : Option JsVal) (d : JsVal) : JsVal :=
  match v with
  | none => d
  | some x => if jsTruthy x then x else d

/-- A parsed JSON request body: the two fields the handlers destructure.
`none` models an absent field (JS `undefined`). -/
structure ReqBody where
  title : Option JsVal
  content : Option JsVal
deriving DecidableEq, Repr

/-- An incoming HTTP request, restricted to what the handlers inspect.
`token` is the `X-User-Token` header, `session` the `X-User-Session` header;
`none` models an absent header (JS `headers.get` returning `null`). -/
structure Request where
  method : String
  path : String
  token : Option String
  session : Option String
  body : ReqBody
deriving DecidableEq, Repr

/-- Truthiness of a header value: absent (`null`) and the empty string are falsy. -/
def hdrOk : Option String → Bool
  | none => false
  | some s => !(s == "")

/-- A note record of the KV variants
(`{ id, content, createdAt, updatedAt }` as built by `handleCreateNote`). -/
structure KVNote where
  id : String
  content : JsVal
  createdAt : Nat
  updatedAt : Nat
deriving DecidableEq, Repr

/-- A relational row of the `notes` table used by functions/api/notes.js. -/
structure Row where
  id : String
  sess : String
  title : JsVal
  content : JsVal
  created_at : Nat
deriving DecidableEq, Repr

/-- The projection of a row returned by
`SELECT id, title, content, created_at FROM notes ...`. -/
structure RowOut where
  id : String
  title : JsVal
  content : JsVal
  created_at : Nat
deriving DecidableEq, Repr

def rowOut (r : Row) : RowOut := ⟨r.id, r.title, r.content, r.created_at⟩

/-- The JSON body of a response, by shape. -/
inductive Body
  | kvNotes (ns : List KVNote)
  | kvNote (n : KVNote)
  | errObj (msg : String)
  | msgObj (msg : String)
  | successTrue
  | rows (rs : List RowOut)
  | created (id : String) (title : Option JsVal) (content : Option JsVal) (created_at : Nat)
deriving DecidableEq, Repr

/-- An HTTP response: status code and JSON body. -/
structure Response where
  status : Nat
  body : Body
deriving DecidableEq, Repr

/- ### String helpers over the character data -/

/-- `s` starts with `p`, over the character lists. -/
def strStarts (s p : String) : Bool := p.data.isPrefixOf s.data

/-- Drop the first `n` characters of `s`. -/
def strDropN (s : String) (n : Nat) : String := ⟨s.data.drop n⟩

/-- Character length of `s` (JS `.length` for the ASCII identifiers involved). -/
def strLen (s : String) : Nat := s.data.length

/- ### KV store (Cloudflare KV) -/

/-- A stored KV value: a string that either parses as a note record or fails
to parse.  `bad s` stands for a raw stored string `s` on which `JSON.parse`
throws; `bad ""` is the empty string, which is falsy in JS. -/
inductive StoredVal
  | good (n : KVNote)
  | bad (s : String)
deriving DecidableEq, Repr

/-- Truthiness of a fetched KV value (JS `if (noteContent)`), where `none`
is a `null` miss and the empty stored string is falsy. -/
def svTruthy : StoredVal → Bool
  | .good _ => true
  | .bad s => !(s == "")

/-- The modelled message of the exception thrown by `JSON.parse` on a bad value. -/
def jsonParseErr (s : String) : String := "SyntaxError: Unexpected token in JSON: " ++ s

/-- `JSON.parse` on a stored value: yields the note or throws. -/
def parseStored : StoredVal → Except String KVNote
  | .good n => .ok n
  | .bad s => .error (jsonParseErr s)

/-- A KV backend operation, for the operation log. -/
inductive KVOp
  | scan (pre : String)
  | get (k : String)
  | put (k : String)
  | del (k : String)
deriving DecidableEq, Repr

/-- KV backend state: the key/value map plus the log of operations performed. -/
structure KVState where
  map : List (String × StoredVal)
  log : List KVOp
deriving DecidableEq, Repr

/-- First-match lookup in the KV map (the value `NOTES_KV.get` would return). -/
def lookupVal (st : KVState) (k : String) : Option StoredVal :=
  (st.map.find? (fun e => e.1 == k)).map Prod.snd

/-- `NOTES_KV.list({ prefix })`: the keys of the entries whose key starts with `pre`. -/
def scanKeys (st : KVState) (pre : String) : List String :=
  (st.map.filter (fun e => strStarts e.1 pre)).map Prod.fst

/-- The logged form of `NOTES_KV.list`. -/
def kvScan (st : KVState) (pre : String) : List String × KVState :=
  (scanKeys st pre, { st with log := st.log ++ [.scan pre] })

/-- The logged form of `NOTES_KV.get`. -/
def kvGet (st : KVState) (k : String) : Option StoredVal × KVState :=
  (lookupVal st k, { st with log := st.log ++ [.get k] })

/-- `NOTES_KV.put`: overwrite-or-insert under key `k`. -/
def kvPut (st : KVState) (k : String) (v : StoredVal) : KVState :=
  { map := (k, v) :: st.map.filter (fun e => !(e.1 == k)),
    log := st.log ++ [.put k] }

/-- `NOTES_KV.delete`: remove the entry under key `k` (a no-op when absent). -/
def kvDel (st : KVState) (k : String) : KVState :=
  { map := st.map.filter (fun e => !(e.1 == k)),
    log := st.log ++ [.del k] }

/-- The KV key scheme: `notes:${userId}:${noteId}`. -/
def kvKey (u id : String) : String := "notes:" ++ u ++ ":" ++ id

/-- The KV list scan argument: `notes:${userId}:`. -/
def kvPre (u : String) : String := "notes:" ++ u ++ ":"

/- ### functions/worker.js — Pages-Functions KV handler -/

/-- The `for (const key of list.keys)` loop of `handleListNotes`: fetch each key,
skip falsy values, `JSON.parse` the rest (which may throw). -/
def notesLoop (st : KVState) : List String → List KVNote → Except String (List KVNote × KVState)
  | [], acc => .ok (acc.reverse, st)
  | k :: ks, acc =>
    let r := kvGet st k
    match r.1 with
    | none => notesLoop r.2 ks acc
    | some sv =>
      if !(svTruthy sv) then notesLoop r.2 ks acc
      else
        match parseStored sv with
        | .ok n => notesLoop r.2 ks (n :: acc)
        | .error m => .error m

/-- worker.js `handleListNotes`. -/
def worker_handleListNotes (req : Request) (st : KVState) :
    Except String (Response × KVState) :=
  if !(hdrOk req.token) then
    .ok (⟨401, .errObj "缺少使用者憑證 (X-User-Token)"⟩, st)
  else
    let u := req.token.getD ""
    let r := kvScan st (kvPre u)
    match notesLoop r.2 r.1 [] with
    | .ok p => .ok (⟨200, .kvNotes p.1⟩, p.2)
    | .error m => .error m

/-- worker.js `handleCreateNote`. -/
def worker_handleCreateNote (req : Request) (st : KVState) (newId : String) (now : Nat) :
    Except String (Response × KVState) :=
  if !(hdrOk req.token) then
    .ok (⟨401, .errObj "缺少使用者憑證"⟩, st)
  else
    let u := req.token.getD ""
    match req.body.content with
    | some (.jstr c) =>
      let newNote : KVNote := ⟨newId, .jstr c, now, now⟩
      .ok (⟨201, .kvNote newNote⟩, kvPut st (kvKey u newId) (.good newNote))
    | _ => .ok (⟨400, .errObj "內容必須是字串"⟩, st)

/-- worker.js `handleUpdateNote`. -/
def worker_handleUpdateNote (req : Request) (st : KVState) (noteId : String) (now : Nat) :
    Except String (Response × KVState) :=
  if !(hdrOk req.token) then
    .ok (⟨401, .errObj "缺少使用者憑證"⟩, st)
  else
    let u := req.token.getD ""
    let key := kvKey u noteId
    let r := kvGet st key
    match r.1 with
    | none => .ok (⟨404, .errObj "找不到要更新的筆記"⟩, r.2)
    | some sv =>
      if !(svTruthy sv) then .ok (⟨404, .errObj "找不到要更新的筆記"⟩, r.2)
      else
        match parseStored sv with
        | .error m => .error m
        | .ok n =>
          let updatedNote : KVNote :=
            { n with content := jsNullish req.body.content n.content, updatedAt := now }
          .ok (⟨200, .kvNote updatedNote⟩, kvPut r.2 key (.good updatedNote))

/-- worker.js `handleDeleteNote` (checks existence before deleting). -/
def worker_handleDeleteNote (req : Request) (st : KVState) (noteId : String) :
    Except String (Response × KVState) :=
  if !(hdrOk req.token) then
    .ok (⟨401, .errObj "缺少使用者憑證"⟩, st)
  else
    let u := req.token.getD ""
    let key := kvKey u noteId
    let r := kvGet st key
    match r.1 with
    | none => .ok (⟨404, .errObj "找不到要刪除的筆記"⟩, r.2)
    | some sv =>
      if !(svTruthy sv) then .ok (⟨404, .errObj "找不到要刪除的筆記"⟩, r.2)
      else .ok (⟨200, .successTrue⟩, kvDel r.2 key)

/-- A character allowed by the item-path pattern `[a-fA-F0-9-]` of the KV variants. -/
def isHexDash (c : Char) : Bool :=
  (decide ('0' ≤ c) && decide (c ≤ '9')) || (decide ('a' ≤ c) && decide (c ≤ 'f')) ||
  (decide ('A' ≤ c) && decide (c ≤ 'F')) || c == '-'

/-- The route test of the KV variants against the anchored pattern
`/api/notes/([a-fA-F0-9-]\x7b36\x7d)`: the captured 36-character identifier, or `none`. -/
def uuidMatch (path : String) : Option String :=
  if strStarts path "/api/notes/" then
    let rest := strDropN path 11
    if strLen rest == 36 && rest.data.all isHexDash then some rest else none
  else none

/-- worker.js `onRequest`: route to the handlers; any unmatched path or method
gets a 404 error response. -/
def worker_onRequest (req : Request) (st : KVState) (newId : String) (now : Nat) :
    Except String (Response × KVState) :=
  if req.path == "/api/notes" && req.method == "GET" then
    worker_handleListNotes req st
  else if req.path == "/api/notes" && req.method == "POST" then
    worker_handleCreateNote req st newId now
  else
    match uuidMatch req.path with
    | some noteId =>
      if req.method == "PUT" then worker_handleUpdateNote req st noteId now
      else if req.method == "DELETE" then worker_handleDeleteNote req st noteId
      else .ok (⟨404, .errObj "API 路由不存在或方法不允許"⟩, st)
    | none => .ok (⟨404, .errObj "API 路由不存在或方法不允許"⟩, st)

/- ### unnamed/part_000 — standard-worker KV handler -/

/-- part_000 `handleListNotes` (identity already resolved by `fetch`). -/
def p000_handleListNotes (st : KVState) (u : String) :
    Except String (Response × KVState) :=
  let r := kvScan st (kvPre u)
  match notesLoop r.2 r.1 [] with
  | .ok p => .ok (⟨200, .kvNotes p.1⟩, p.2)
  | .error m => .error m

/-- part_000 `handleCreateNote`. -/
def p000_handleCreateNote (body : ReqBody) (st : KVState) (u : String)
    (newId : String) (now : Nat) : Response × KVState :=
  match body.content with
  | some (.jstr c) =>
    let newNote : KVNote := ⟨newId, .jstr c, now, now⟩
    (⟨201, .kvNote newNote⟩, kvPut st (kvKey u newId) (.good newNote))
  | _ => (⟨400, .errObj "內容必須是字串"⟩, st)

/-- part_000 `handleUpdateNote`. -/
def p000_handleUpdateNote (body : ReqBody) (st : KVState) (u : String)
    (noteId : String) (now : Nat) : Except String (Response × KVState) :=
  let key := kvKey u noteId
  let r := kvGet st key
  match r.1 with
  | none => .ok (⟨404, .errObj "找不到要更新的筆記"⟩, r.2)
  | some sv =>
    if !(svTruthy sv) then .ok (⟨404, .errObj "找不到要更新的筆記"⟩, r.2)
    else
      match parseStored sv with
      | .error m => .error m
      | .ok n =>
        let updatedNote : KVNote :=
          { n with content := jsNullish body.content n.content, updatedAt := now }
        .ok (⟨200, .kvNote updatedNote⟩, kvPut r.2 key (.good updatedNote))

/-- part_000 `handleDeleteNote`: deletes unconditionally, with no existence check. -/
def p000_handleDeleteNote (st : KVState) (u : String) (noteId : String) :
    Response × KVState :=
  (⟨200, .successTrue⟩, kvDel st (kvKey u noteId))

/-- part_000 fallthrough after the routes: 404 inside the API area, 404 with a
different message outside it (the file never yields to the static layer). -/
def p000_fallback (path : String) (st : KVState) : Response × KVState :=
  if strStarts path "/api/" then (⟨404, .errObj "API 路由不存在或方法不允許"⟩, st)
  else (⟨404, .errObj "找不到資源"⟩, st)

/-- part_000 `fetch`: the identity check runs before any routing. -/
def p000_fetch (req : Request) (st : KVState) (newId : String) (now : Nat) :
    Except String (Response × KVState) :=
  if !(hdrOk req.token) then
    .ok (⟨401, .errObj "缺少使用者憑證 (X-User-Token)"⟩, st)
  else
    let u := req.token.getD ""
    if req.path == "/api/notes" && req.method == "GET" then
      p000_handleListNotes st u
    else if req.path == "/api/notes" && req.method == "POST" then
      .ok (p000_handleCreateNote req.body st u newId now)
    else
      match uuidMatch req.path with
      | some noteId =>
        if req.method == "PUT" then p000_handleUpdateNote req.body st u noteId now
        else if req.method == "DELETE" then .ok (p000_handleDeleteNote st u noteId)
        else .ok (p000_fallback req.path st)
      | none => .ok (p000_fallback req.path st)

/- ### D1 relational backend -/

/-- A D1 backend operation, for the operation log. -/
inductive DOp
  | selectAll (sess : String)
  | insert (id sess : String)
  | update (id sess : String)
  | delete (id sess : String)
deriving DecidableEq, Repr

/-- D1 backend state: the rows of the `notes` table plus the log of operations. -/
structure DState where
  rows : List Row
  log : List DOp
deriving DecidableEq, Repr

/-- Insert a row into a list sorted by `created_at` descending. -/
def insertDesc (r : Row) : List Row → List Row
  | [] => [r]
  | x :: xs => if r.created_at ≤ x.created_at then x :: insertDesc r xs else r :: x :: xs

/-- Sort rows by `created_at` descending (`ORDER BY created_at DESC`). -/
def sortDesc (rs : List Row) : List Row := rs.foldr insertDesc []

/-- The modelled message of the fault D1 raises when a bound value is `undefined`. -/
def d1TypeErr : String := "D1_TYPE_ERROR: Type undefined not supported"

/-- `SELECT ... WHERE user_session_id = ? ORDER BY created_at DESC`. -/
def dAll (st : DState) (sess : String) : List Row × DState :=
  (sortDesc (st.rows.filter (fun r => r.sess == sess)),
   { st with log := st.log ++ [.selectAll sess] })

/-- `INSERT INTO notes ...` with the five bound values; a bound `undefined`
(`none`) raises a backend type fault. -/
def dRunInsert (st : DState) (id sess : String) (title content : Option JsVal)
    (ts : Nat) : Except String DState :=
  match title, content with
  | some t, some c =>
    .ok { rows := st.rows ++ [⟨id, sess, t, c, ts⟩],
          log := st.log ++ [.insert id sess] }
  | _, _ => .error d1TypeErr

/-- `UPDATE notes SET title = ?, content = ? WHERE id = ? AND user_session_id = ?`:
returns the number of affected rows and the new state. -/
def dRunUpdate (st : DState) (title content : Option JsVal) (id sess : String) :
    Except String (Nat × DState) :=
  match title, content with
  | some t, some c =>
    .ok ((st.rows.filter (fun r => r.id == id && r.sess == sess)).length,
         { rows := st.rows.map (fun r =>
             if r.id == id && r.sess == sess then { r with title := t, content := c } else r),
           log := st.log ++ [.update id sess] })
  | _, _ => .error d1TypeErr

/-- `DELETE FROM notes WHERE id = ? AND user_session_id = ?`:
returns the number of affected rows and the new state. -/
def dRunDelete (st : DState) (id sess : String) : Nat × DState :=
  ((st.rows.filter (fun r => r.id == id && r.sess == sess)).length,
   { rows := st.rows.filter (fun r => !(r.id == id && r.sess == sess)),
     log := st.log ++ [.delete id sess] })

/- ### functions/api/notes.js, first half — Pages Function `onRequest` -/

/-- The method dispatch shared by both halves of notes.js: the `try { switch ... }
catch` block, with `noteId` already extracted.  A fault from a backend call is
caught and converted to a 500 response embedding the fault message. -/
def notesSwitch (method : String) (sess : String) (noteId : Option String)
    (body : ReqBody) (newId : String) (now : Nat) (st : DState) : Response × DState :=
  match method with
  | "GET" =>
    let r := dAll st sess
    (⟨200, .rows (r.1.map rowOut)⟩, r.2)
  | "POST" =>
    match dRunInsert st newId sess (some (jsOrElse body.title (.jstr "(無標題)")))
        body.content now with
    | .ok st1 => (⟨201, .created newId body.title body.content now⟩, st1)
    | .error m => (⟨500, .msgObj ("Database error: " ++ m)⟩, st)
  | "PUT" =>
    match noteId with
    | none => (⟨400, .msgObj "Missing note ID for update."⟩, st)
    | some nid =>
      match dRunUpdate st (some (jsOrElse body.title (.jstr "(無標題)"))) body.content
          nid sess with
      | .ok r =>
        if r.1 == 0 then (⟨404, .msgObj "Note not found or you do not own this note."⟩, r.2)
        else (⟨200, .msgObj "Note updated successfully"⟩, r.2)
      | .error m => (⟨500, .msgObj ("Database error: " ++ m)⟩, st)
  | "DELETE" =>
    match noteId with
    | none => (⟨400, .msgObj "Missing note ID for deletion."⟩, st)
    | some nid =>
      let r := dRunDelete st nid sess
      if r.1 == 0 then (⟨404, .msgObj "Note not found or you do not own this note."⟩, r.2)
      else (⟨200, .msgObj "Note deleted successfully"⟩, r.2)
  | m => (⟨405, .msgObj ("Method " ++ m ++ " not allowed.")⟩, st)

/-- notes.js (first half) `onRequest`: a Pages Function invoked on the
`/api/notes` routes, with `params.notes` holding the path segments after
`/api/notes`.  The identity check precedes the dispatch. -/
def notes_onRequest (method : String) (session : Option String)
    (paramsNotes : List String) (body : ReqBody) (newId : String) (now : Nat)
    (st : DState) : Response × DState :=
  if !(hdrOk session) then
    (⟨401, .msgObj "Missing X-User-Session header. User must be initialized."⟩, st)
  else
    let sess := session.getD ""
    let noteId : Option String := paramsNotes.head?
    notesSwitch method sess noteId body newId now st

/- ### functions/api/notes.js, second half — standard worker `handleRequest` -/

/-- A character allowed by the item-path pattern `[a-zA-Z0-9-]` of the
relational worker. -/
def isAlnumDash (c : Char) : Bool :=
  (decide ('0' ≤ c) && decide (c ≤ '9')) || (decide ('a' ≤ c) && decide (c ≤ 'z')) ||
  (decide ('A' ≤ c) && decide (c ≤ 'Z')) || c == '-'

/-- The route test against the anchored pattern `/api/notes/?([a-zA-Z0-9-]+)?`:
`none` means no match (the request is not handled), `some none` a match with
no captured identifier, `some (some id)` a match with identifier `id`. -/
def dRouteMatch (path : String) : Option (Option String) :=
  if strStarts path "/api/notes" then
    let rest := strDropN path 10
    if rest == "" then some none
    else
      let rest2 := if strStarts rest "/" then strDropN rest 1 else rest
      if rest2 == "" then some none
      else if rest2.data.all isAlnumDash then some (some rest2) else none
  else none

/-- notes.js (second half) `handleRequest`: returns `none` (JS `undefined`)
when the path does not match, so the static-asset layer serves the request. -/
def notes_handleRequest (method path : String) (session : Option String)
    (body : ReqBody) (newId : String) (now : Nat) (st : DState) :
    Option (Response × DState) :=
  match dRouteMatch path with
  | none => none
  | some idOpt =>
    if !(hdrOk session) then
      some (⟨401, .msgObj "Missing X-User-Session header. User must be initialized."⟩, st)
    else
      let sess := session.getD ""
      some (notesSwitch method sess idOpt body newId now st)

/-- notes.js (second half) `fetch`: forwards a response from `handleRequest`
and otherwise returns `undefined` for the static layer. -/
def notes_fetch (method path : String) (session : Option String) (body : ReqBody)
    (newId : String) (now : Nat) (st : DState) : Option (Response × DState) :=
  match notes_handleRequest method path session body newId now st with
  | some r => some r
  | none => none

/- ### Concrete material for counterexamples and witnesses -/

/-- A canonical 36-character identifier, as produced by `crypto.randomUUID`. -/
def sampleId : String := "00000000-0000-4000-8000-000000000000"

/- ### Claim theorems -/

/-- C1 counterexample: scope isolation fails in the prefix store for scope
strings containing the key separator.  A note created under the scope `a:b`
is stored under the key `notes:a:b:<id>`, which the prefix scan
`notes:a:` of the distinct scope `a` picks up, so the note created under
`a:b` appears in the list response of scope `a`. -/
theorem c1_cross_scope_counterexample :
    ("a:b" : String) ≠ "a" ∧
    worker_onRequest ⟨"POST", "/api/notes", some "a:b", none, ⟨none, some (.jstr "hi")⟩⟩
        ⟨[], []⟩ sampleId 7
      = .ok (⟨201, .kvNote ⟨sampleId, .jstr "hi", 7, 7⟩⟩,
             ⟨[(kvKey "a:b" sampleId, .good ⟨sampleId, .jstr "hi", 7, 7⟩)],
              [.put (kvKey "a:b" sampleId)]⟩) ∧
    Except.map Prod.fst (worker_onRequest ⟨"GET", "/api/notes", some "a", none, ⟨none, none⟩⟩
        ⟨[(kvKey "a:b" sampleId, .good ⟨sampleId, .jstr "hi", 7, 7⟩)],
         [.put (kvKey "a:b" sampleId)]⟩ "x" 8)
      = .ok ⟨200, .kvNotes [⟨sampleId, .jstr "hi", 7, 7⟩]⟩ :=
  ⟨by decide, rfl, rfl⟩

/-- C2 counterexample: in the standard-worker KV variant (part_000), deleting
the same note twice succeeds twice — the second delete also returns
200 `success:true` instead of the claimed 404, because `handleDeleteNote`
deletes unconditionally without an existence check. -/
theorem c2_double_delete_counterexample :
    p000_fetch ⟨"DELETE", "/api/notes/" ++ sampleId, some "u", none, ⟨none, none⟩⟩
        ⟨[(kvKey "u" sampleId, .good ⟨sampleId, .jstr "hi", 1, 1⟩)], []⟩ "n" 2
      = .ok (⟨200, .successTrue⟩, ⟨[], [.del (kvKey "u" sampleId)]⟩) ∧
    p000_fetch ⟨"DELETE", "/api/notes/" ++ sampleId, some "u", none, ⟨none, none⟩⟩
        ⟨[], [.del (kvKey "u" sampleId)]⟩ "n" 3
      = .ok (⟨200, .successTrue⟩,
             ⟨[], [.del (kvKey "u" sampleId), .del (kvKey "u" sampleId)]⟩) :=
  ⟨rfl, rfl⟩

/-- C3 counterexample: a storage-layer fault escapes the dispatch boundary
unhandled in the Pages-Functions KV variant — a malformed stored value makes
`JSON.parse` throw inside `handleListNotes`, and worker.js has no catch, so the
request evaluates to an uncaught exception instead of a 500 response. -/
theorem c3_backend_fault_counterexample :
    worker_onRequest ⟨"GET", "/api/notes", some "u", none, ⟨none, none⟩⟩
        ⟨[(kvKey "u" "x", .bad "oops")], []⟩ "n" 1 = .error (jsonParseErr "oops") :=
  rfl

/-- C4 counterexample: the relational update does not merge — a PUT whose body
omits `title` overwrites the stored title `T` with the placeholder, so a field
omitted from the body does not keep its stored value. -/
theorem c4_update_merge_counterexample :
    notes_onRequest "PUT" (some "u") ["id1"] ⟨none, some (.jstr "c2")⟩ "x" 8
        ⟨[⟨"id1", "u", .jstr "T", .jstr "c", 5⟩], []⟩
      = (⟨200, .msgObj "Note updated successfully"⟩,
         ⟨[⟨"id1", "u", .jstr "(無標題)", .jstr "c2", 5⟩], [.update "id1" "u"]⟩) ∧
    JsVal.jstr "T" ≠ .jstr "(無標題)" :=
  ⟨rfl, by decide⟩

/-- C5 counterexample: a successful relational update changes the `title`
field, not only `content` — the stored title goes from `Old` to `New`. -/
theorem c5_update_frame_counterexample :
    notes_onRequest "PUT" (some "u") ["id2"] ⟨some (.jstr "New"), some (.jstr "c")⟩ "x" 9
        ⟨[⟨"id2", "u", .jstr "Old", .jstr "c", 5⟩], []⟩
      = (⟨200, .msgObj "Note updated successfully"⟩,
         ⟨[⟨"id2", "u", .jstr "New", .jstr "c", 5⟩], [.update "id2" "u"]⟩) ∧
    JsVal.jstr "Old" ≠ .jstr "New" :=
  ⟨rfl, by decide⟩

/-- C6 counterexample: a successful relational PUT does not return the updated
note as its body — two updates producing different stored records return the
same fixed message body, so the success payload cannot be the note record. -/
theorem c6_put_payload_counterexample :
    notes_onRequest "PUT" (some "u") ["id3"] ⟨some (.jstr "T"), some (.jstr "A")⟩ "x" 9
        ⟨[⟨"id3", "u", .jstr "T", .jstr "c", 5⟩], []⟩
      = (⟨200, .msgObj "Note updated successfully"⟩,
         ⟨[⟨"id3", "u", .jstr "T", .jstr "A", 5⟩], [.update "id3" "u"]⟩) ∧
    notes_onRequest "PUT" (some "u") ["id3"] ⟨some (.jstr "T"), some (.jstr "B")⟩ "x" 9
        ⟨[⟨"id3", "u", .jstr "T", .jstr "c", 5⟩], []⟩
      = (⟨200, .msgObj "Note updated successfully"⟩,
         ⟨[⟨"id3", "u", .jstr "T", .jstr "B", 5⟩], [.update "id3" "u"]⟩) ∧
    (⟨"id3", "u", .jstr "T", .jstr "A", 5⟩ : Row) ≠ ⟨"id3", "u", .jstr "T", .jstr "B", 5⟩ :=
  ⟨rfl, rfl, by decide⟩

/-- C8 counterexample: the relational POST performs no body validation — a body
whose `content` is the number 5 (not a string) is inserted into the backend and
answered with 201, not rejected with 400. -/
theorem c8_post_validation_counterexample :
    notes_onRequest "POST" (some "u") [] ⟨none, some (.jnum 5)⟩ "id1" 7 ⟨[], []⟩
      = (⟨201, .created "id1" none (some (.jnum 5)) 7⟩,
         ⟨[⟨"id1", "u", .jstr "(無標題)", .jnum 5, 7⟩], [.insert "id1" "u"]⟩) :=
  rfl

/-- C9 counterexample: the Pages-Functions KV variant (worker.js) answers a
request for a path outside the API area with a 404 API error response instead
of yielding a not-handled sentinel to the static-asset layer. -/
theorem c9_passthrough_counterexample :
    worker_onRequest ⟨"GET", "/index.html", some "u", none, ⟨none, none⟩⟩ ⟨[], []⟩ "n" 1
      = .ok (⟨404, .errObj "API 路由不存在或方法不允許"⟩, ⟨[], []⟩) :=
  rfl

/- ### Routing and store lemmas -/

theorem strStarts_trans (path p q : String)
    (hpq : q.data.isPrefixOf p.data = true) (h : strStarts path p = true) :
    strStarts path q = true := by
  rw [strStarts, List.isPrefixOf_iff_prefix] at h ⊢
  exact List.IsPrefix.trans (List.isPrefixOf_iff_prefix.mp hpq) h

theorem uuidMatch_starts (path nid : String) (h : uuidMatch path = some nid) :
    strStarts path "/api/notes/" = true := by
  by_cases hs : strStarts path "/api/notes/" = true
  · exact hs
  · rw [uuidMatch, if_neg hs] at h
    cases h

theorem dRouteMatch_starts (path : String) (r : Option String)
    (h : dRouteMatch path = some r) : strStarts path "/api/notes" = true := by
  by_cases hs : strStarts path "/api/notes" = true
  · exact hs
  · rw [dRouteMatch, if_neg hs] at h
    cases h

/-- The key written for a note is always picked up by the scan of its own scope. -/
theorem kvKey_starts (u id : String) : strStarts (kvKey u id) (kvPre u) = true := by
  rw [strStarts]
  have hd : (kvKey u id).data = (kvPre u).data ++ id.data := by
    rw [show kvKey u id = kvPre u ++ id from rfl, String.data_append]
  rw [hd, List.isPrefixOf_iff_prefix]
  exact List.prefix_append _ _

/-- After `kvDel st k`, a lookup of `k` misses. -/
theorem lookupVal_kvDel_self (st : KVState) (k : String) :
    lookupVal (kvDel st k) k = none := by
  simp only [lookupVal, kvDel, Option.map_eq_none']
  rw [List.find?_eq_none]
  intro x hx
  have hne := (List.mem_filter.mp hx).2
  simp only [Bool.not_eq_true'] at hne
  simp [hne]

/-- Deleting the rows matching a condition leaves no row matching it. -/
theorem filter_after_erase (l : List Row) (p : Row → Bool) :
    (l.filter (fun r => !(p r))).filter p = [] := by
  rw [List.filter_filter]
  have h : ∀ r ∈ l, (p r && !(p r)) = false := by
    intro r _
    cases p r <;> simp
  calc (l.filter fun a => p a && !(p a)) = l.filter (fun _ => false) :=
        List.filter_congr h
    _ = [] := by simp

/-- C7: on every variant, a request whose identity header is missing or empty
is answered 401 and the backend state — data and operation log alike — is
untouched: the identity check resolves before any backend access. -/
theorem c7_auth_before_backend
    (req : Request) (ps : List String) (newId noteId : String) (now : Nat)
    (st : KVState) (d : DState)
    (hTok : req.token = none ∨ req.token = some "")
    (hSess : req.session = none ∨ req.session = some "") :
    worker_handleListNotes req st = .ok (⟨401, .errObj "缺少使用者憑證 (X-User-Token)"⟩, st) ∧
    worker_handleCreateNote req st newId now = .ok (⟨401, .errObj "缺少使用者憑證"⟩, st) ∧
    worker_handleUpdateNote req st noteId now = .ok (⟨401, .errObj "缺少使用者憑證"⟩, st) ∧
    worker_handleDeleteNote req st noteId = .ok (⟨401, .errObj "缺少使用者憑證"⟩, st) ∧
    p000_fetch req st newId now = .ok (⟨401, .errObj "缺少使用者憑證 (X-User-Token)"⟩, st) ∧
    notes_onRequest req.method req.session ps req.body newId now d
      = (⟨401, .msgObj "Missing X-User-Session header. User must be initialized."⟩, d) ∧
    (∀ r, dRouteMatch req.path = some r →
      notes_handleRequest req.method req.path req.session req.body newId now d
        = some (⟨401, .msgObj "Missing X-User-Session header. User must be initialized."⟩, d)) := by
  have ht : hdrOk req.token = false := by rcases hTok with h | h <;> simp [h, hdrOk]
  have hs : hdrOk req.session = false := by rcases hSess with h | h <;> simp [h, hdrOk]
  refine ⟨?_, ?_, ?_, ?_, ?_, ?_, ?_⟩
  · simp [worker_handleListNotes, ht]
  · simp [worker_handleCreateNote, ht]
  · simp [worker_handleUpdateNote, ht]
  · simp [worker_handleDeleteNote, ht]
  · simp [p000_fetch, ht]
  · simp [notes_onRequest, hs]
  · intro r hr
    simp [notes_handleRequest, hr, hs]

/-- C7 witness: the 401 short-circuit at a concrete request with no headers. -/
theorem c7_auth_before_backend_witness :
    worker_handleListNotes ⟨"GET", "/api/notes", none, none, ⟨none, none⟩⟩ ⟨[], []⟩
      = .ok (⟨401, .errObj "缺少使用者憑證 (X-User-Token)"⟩, ⟨[], []⟩) ∧
    worker_handleCreateNote ⟨"GET", "/api/notes", none, none, ⟨none, none⟩⟩ ⟨[], []⟩ "n" 0
      = .ok (⟨401, .errObj "缺少使用者憑證"⟩, ⟨[], []⟩) ∧
    worker_handleUpdateNote ⟨"GET", "/api/notes", none, none, ⟨none, none⟩⟩ ⟨[], []⟩ "x" 0
      = .ok (⟨401, .errObj "缺少使用者憑證"⟩, ⟨[], []⟩) ∧
    worker_handleDeleteNote ⟨"GET", "/api/notes", none, none, ⟨none, none⟩⟩ ⟨[], []⟩ "x"
      = .ok (⟨401, .errObj "缺少使用者憑證"⟩, ⟨[], []⟩) ∧
    p000_fetch ⟨"GET", "/api/notes", none, none, ⟨none, none⟩⟩ ⟨[], []⟩ "n" 0
      = .ok (⟨401, .errObj "缺少使用者憑證 (X-User-Token)"⟩, ⟨[], []⟩) ∧
    notes_onRequest "GET" none [] ⟨none, none⟩ "n" 0 ⟨[], []⟩
      = (⟨401, .msgObj "Missing X-User-Session header. User must be initialized."⟩, ⟨[], []⟩) ∧
    notes_handleRequest "GET" "/api/notes" none ⟨none, none⟩ "n" 0 ⟨[], []⟩
      = some (⟨401, .msgObj "Missing X-User-Session header. User must be initialized."⟩,
              ⟨[], []⟩) := by
  have h := c7_auth_before_backend ⟨"GET", "/api/notes", none, none, ⟨none, none⟩⟩
    [] "n" "x" 0 ⟨[], []⟩ ⟨[], []⟩ (Or.inl rfl) (Or.inl rfl)
  exact ⟨h.1, h.2.1, h.2.2.1, h.2.2.2.1, h.2.2.2.2.1, h.2.2.2.2.2.1,
         h.2.2.2.2.2.2 none rfl⟩

/-- C10: in the standard-worker KV variant (part_000), the identity check runs
before route matching — a request with a missing or empty `X-User-Token` gets
401 whatever its path, and with a valid token a non-API path still gets a 404
response rather than being yielded to the static-asset layer. -/
theorem c10_p000_auth_first
    (m path : String) (tok sess : Option String) (b : ReqBody) (newId : String)
    (now : Nat) (st : KVState) :
    (tok = none ∨ tok = some "" →
      p000_fetch ⟨m, path, tok, sess, b⟩ st newId now
        = .ok (⟨401, .errObj "缺少使用者憑證 (X-User-Token)"⟩, st)) ∧
    (∀ u : String, tok = some u → u ≠ "" → strStarts path "/api/" = false →
      p000_fetch ⟨m, path, tok, sess, b⟩ st newId now
        = .ok (⟨404, .errObj "找不到資源"⟩, st)) := by
  constructor
  · rintro (rfl | rfl) <;> rfl
  · rintro u rfl hu hpath
    have hne : (u == "") = false := by simp [hu]
    have hp1 : (path == "/api/notes") = false := by
      rw [beq_eq_false_iff_ne]
      intro he; subst he
      have hT : strStarts "/api/notes" "/api/" = true := by decide
      rw [hT] at hpath; cases hpath
    have hm : uuidMatch path = none := by
      cases hum : uuidMatch path with
      | none => rfl
      | some nid =>
        have hs := uuidMatch_starts path nid hum
        have h2 := strStarts_trans path "/api/notes/" "/api/" (by decide) hs
        rw [h2] at hpath; cases hpath
    simp [p000_fetch, hdrOk, hne, hp1, hm, p000_fallback, hpath]

/-- C10 witness: 401 without a token and 404 with one, at a non-API path. -/
theorem c10_p000_auth_first_witness :
    p000_fetch ⟨"GET", "/index.html", none, none, ⟨none, none⟩⟩ ⟨[], []⟩ "n" 0
      = .ok (⟨401, .errObj "缺少使用者憑證 (X-User-Token)"⟩, ⟨[], []⟩) ∧
    p000_fetch ⟨"GET", "/index.html", some "u", none, ⟨none, none⟩⟩ ⟨[], []⟩ "n" 0
      = .ok (⟨404, .errObj "找不到資源"⟩, ⟨[], []⟩) :=
  ⟨(c10_p000_auth_first "GET" "/index.html" none none ⟨none, none⟩ "n" 0 ⟨[], []⟩).1
     (Or.inl rfl),
   (c10_p000_auth_first "GET" "/index.html" (some "u") none ⟨none, none⟩ "n" 0 ⟨[], []⟩).2
     "u" rfl (by decide) (by decide)⟩

/- ### Dispatch equations for the relational handlers -/

theorem notes_onRequest_auth (m sess : String) (hs : (sess == "") = false)
    (ps : List String) (b : ReqBody) (x : String) (y : Nat) (d : DState) :
    notes_onRequest m (some sess) ps b x y d = notesSwitch m sess ps.head? b x y d := by
  simp [notes_onRequest, hdrOk, hs]

theorem notesSwitch_list (sess : String) (nid : Option String) (b : ReqBody)
    (x : String) (y : Nat) (d : DState) :
    notesSwitch "GET" sess nid b x y d
      = (⟨200, .rows ((sortDesc (d.rows.filter (fun r => r.sess == sess))).map rowOut)⟩,
         ⟨d.rows, d.log ++ [.selectAll sess]⟩) := by
  simp [notesSwitch, dAll]

theorem notesSwitch_create (sess : String) (nid : Option String) (tv : Option JsVal)
    (cv : JsVal) (x : String) (y : Nat) (d : DState) :
    notesSwitch "POST" sess nid ⟨tv, some cv⟩ x y d
      = (⟨201, .created x tv (some cv) y⟩,
         ⟨d.rows ++ [⟨x, sess, jsOrElse tv (.jstr "(無標題)"), cv, y⟩],
          d.log ++ [.insert x sess]⟩) := by
  simp [notesSwitch, dRunInsert]

theorem notesSwitch_create_undef (sess : String) (nid : Option String)
    (tv : Option JsVal) (x : String) (y : Nat) (d : DState) :
    notesSwitch "POST" sess nid ⟨tv, none⟩ x y d
      = (⟨500, .msgObj ("Database error: " ++ d1TypeErr)⟩, d) := by
  simp [notesSwitch, dRunInsert]

theorem notesSwitch_update (sess nid : String) (tv : Option JsVal) (cv : JsVal)
    (x : String) (y : Nat) (d : DState) :
    notesSwitch "PUT" sess (some nid) ⟨tv, some cv⟩ x y d
      = (if (d.rows.filter (fun r => r.id == nid && r.sess == sess)).length == 0
           then (⟨404, .msgObj "Note not found or you do not own this note."⟩ : Response)
           else ⟨200, .msgObj "Note updated successfully"⟩,
         ⟨d.rows.map (fun r => if r.id == nid && r.sess == sess
             then { r with title := jsOrElse tv (.jstr "(無標題)"), content := cv } else r),
          d.log ++ [.update nid sess]⟩) := by
  simp only [notesSwitch, dRunUpdate]
  split <;> rfl

theorem notesSwitch_delete (sess nid : String) (b : ReqBody)
    (x : String) (y : Nat) (d : DState) :
    notesSwitch "DELETE" sess (some nid) b x y d
      = (if (d.rows.filter (fun r => r.id == nid && r.sess == sess)).length == 0
           then (⟨404, .msgObj "Note not found or you do not own this note."⟩ : Response)
           else ⟨200, .msgObj "Note deleted successfully"⟩,
         ⟨d.rows.filter (fun r => !(r.id == nid && r.sess == sess)),
          d.log ++ [.delete nid sess]⟩) := by
  simp only [notesSwitch, dRunDelete]
  split <;> rfl

/-- C2 (amended): deleting a note twice yields 404 on the second call in the
Pages-Functions KV variant and the relational variant, whose delete is
conditioned on existence under the exact (scope, id) pair; the standard-worker
KV variant (part_000) instead deletes unconditionally and returns 200 even
when no note exists under that pair. -/
theorem c2_double_delete_amended
    (u nid : String) (hu : u ≠ "") (st : KVState) (n : KVNote)
    (hx : lookupVal st (kvKey u nid) = some (.good n))
    (sess id2 : String) (hs : sess ≠ "") (d : DState)
    (hd : (d.rows.filter (fun r => r.id == id2 && r.sess == sess)).length ≠ 0)
    (b : ReqBody) (x : String) (y : Nat)
    (st2 : KVState) (hfresh : lookupVal st2 (kvKey u nid) = none) :
    worker_handleDeleteNote ⟨"DELETE", "", some u, none, b⟩ st nid
      = .ok (⟨200, .successTrue⟩,
             kvDel { st with log := st.log ++ [.get (kvKey u nid)] } (kvKey u nid)) ∧
    Except.map Prod.fst (worker_handleDeleteNote ⟨"DELETE", "", some u, none, b⟩
        (kvDel { st with log := st.log ++ [.get (kvKey u nid)] } (kvKey u nid)) nid)
      = .ok ⟨404, .errObj "找不到要刪除的筆記"⟩ ∧
    (notes_onRequest "DELETE" (some sess) [id2] b x y d).1
      = ⟨200, .msgObj "Note deleted successfully"⟩ ∧
    (notes_onRequest "DELETE" (some sess) [id2] b x y
        (notes_onRequest "DELETE" (some sess) [id2] b x y d).2).1
      = ⟨404, .msgObj "Note not found or you do not own this note."⟩ ∧
    p000_handleDeleteNote st2 u nid = (⟨200, .successTrue⟩, kvDel st2 (kvKey u nid)) := by
  have hne : (u == "") = false := by simp [hu]
  have hsne : (sess == "") = false := by simp [hs]
  have hch : ((d.rows.filter (fun r => r.id == id2 && r.sess == sess)).length == 0) = false :=
    beq_eq_false_iff_ne.mpr hd
  have hhead : ([id2] : List String).head? = some id2 := rfl
  refine ⟨?_, ?_, ?_, ?_, rfl⟩
  · simp [worker_handleDeleteNote, hdrOk, hne, kvGet, hx, svTruthy]
  · simp [worker_handleDeleteNote, hdrOk, hne, kvGet, lookupVal_kvDel_self, Except.map]
  · rw [notes_onRequest_auth "DELETE" sess hsne, hhead, notesSwitch_delete, hch]
    simp
  · rw [notes_onRequest_auth "DELETE" sess hsne, hhead, notesSwitch_delete,
        notes_onRequest_auth "DELETE" sess hsne, hhead, notesSwitch_delete]
    simp [filter_after_erase]

/-- C2 witness: the amended double-delete behaviour at concrete stores. -/
theorem c2_double_delete_amended_witness :
    worker_handleDeleteNote ⟨"DELETE", "", some "u", none, ⟨none, none⟩⟩
        ⟨[(kvKey "u" "i1", .good ⟨"i1", .jstr "c", 1, 1⟩)], []⟩ "i1"
      = .ok (⟨200, .successTrue⟩, ⟨[], [.get "notes:u:i1", .del "notes:u:i1"]⟩) ∧
    Except.map Prod.fst (worker_handleDeleteNote ⟨"DELETE", "", some "u", none, ⟨none, none⟩⟩
        ⟨[], [.get "notes:u:i1", .del "notes:u:i1"]⟩ "i1")
      = .ok ⟨404, .errObj "找不到要刪除的筆記"⟩ ∧
    (notes_onRequest "DELETE" (some "s") ["i2"] ⟨none, none⟩ "x" 0
        ⟨[⟨"i2", "s", .jstr "t", .jstr "c", 3⟩], []⟩).1
      = ⟨200, .msgObj "Note deleted successfully"⟩ ∧
    (notes_onRequest "DELETE" (some "s") ["i2"] ⟨none, none⟩ "x" 0
        (notes_onRequest "DELETE" (some "s") ["i2"] ⟨none, none⟩ "x" 0
          ⟨[⟨"i2", "s", .jstr "t", .jstr "c", 3⟩], []⟩).2).1
      = ⟨404, .msgObj "Note not found or you do not own this note."⟩ ∧
    p000_handleDeleteNote ⟨[], []⟩ "u" "i1"
      = (⟨200, .successTrue⟩, kvDel ⟨[], []⟩ (kvKey "u" "i1")) :=
  c2_double_delete_amended "u" "i1" (by decide)
    ⟨[(kvKey "u" "i1", .good ⟨"i1", .jstr "c", 1, 1⟩)], []⟩ ⟨"i1", .jstr "c", 1, 1⟩ rfl
    "s" "i2" (by decide) ⟨[⟨"i2", "s", .jstr "t", .jstr "c", 3⟩], []⟩ (by decide)
    ⟨none, none⟩ "x" 0 ⟨[], []⟩ rfl

/-- C3 (amended): the relational dispatch catches every storage fault at its
boundary and answers 500, but the reply embeds the underlying fault message
rather than a cause-independent generic one; the KV variants have no such
boundary — a storage fault (malformed stored data) escapes unhandled. -/
theorem c3_backend_fault_amended
    (sess : String) (hs : sess ≠ "") (title : Option JsVal) (ps : List String)
    (newId : String) (now : Nat) (d : DState)
    (u s noteId : String) (hu : u ≠ "") (hbad : s ≠ "") :
    notes_onRequest "POST" (some sess) ps ⟨title, none⟩ newId now d
      = (⟨500, .msgObj ("Database error: " ++ d1TypeErr)⟩, d) ∧
    worker_onRequest ⟨"GET", "/api/notes", some u, none, ⟨none, none⟩⟩
        ⟨[(kvKey u noteId, .bad s)], []⟩ newId now = .error (jsonParseErr s) := by
  have hsne : (sess == "") = false := by simp [hs]
  have hune : (u == "") = false := by simp [hu]
  have hbne : (s == "") = false := by simp [hbad]
  constructor
  · rw [notes_onRequest_auth "POST" sess hsne, notesSwitch_create_undef]
  · simp [worker_onRequest, worker_handleListNotes, hdrOk, hune, kvScan, scanKeys,
      kvGet, lookupVal, kvKey_starts, notesLoop, parseStored, svTruthy, hbne]

/-- C3 witness: the amended fault handling at a concrete session and store. -/
theorem c3_backend_fault_amended_witness :
    notes_onRequest "POST" (some "s") [] ⟨none, none⟩ "n" 0 ⟨[], []⟩
      = (⟨500, .msgObj ("Database error: " ++ d1TypeErr)⟩, ⟨[], []⟩) ∧
    worker_onRequest ⟨"GET", "/api/notes", some "u", none, ⟨none, none⟩⟩
        ⟨[(kvKey "u" "x", .bad "zz")], []⟩ "n" 0 = .error (jsonParseErr "zz") :=
  c3_backend_fault_amended "s" (by decide) none [] "n" 0 ⟨[], []⟩ "u" "zz" "x"
    (by decide) (by decide)

/-- C4 (amended): the KV update merges — a body whose `content` is absent or
null leaves the stored content unchanged; the relational update does not
merge — it overwrites both `title` and `content` unconditionally, replacing an
omitted title with the placeholder. -/
theorem c4_update_merge_amended
    (u nid : String) (hu : u ≠ "") (st : KVState) (n : KVNote) (b : ReqBody)
    (now : Nat) (hx : lookupVal st (kvKey u nid) = some (.good n))
    (hb : b.content = none ∨ b.content = some .jnull)
    (sess id2 : String) (hs : sess ≠ "") (d : DState) (cv : JsVal) (x : String) (y : Nat)
    (hch : (d.rows.filter (fun r => r.id == id2 && r.sess == sess)).length ≠ 0) :
    worker_handleUpdateNote ⟨"PUT", "", some u, none, b⟩ st nid now
      = .ok (⟨200, .kvNote { n with updatedAt := now }⟩,
             kvPut { st with log := st.log ++ [.get (kvKey u nid)] } (kvKey u nid)
               (.good { n with updatedAt := now })) ∧
    notes_onRequest "PUT" (some sess) [id2] ⟨none, some cv⟩ x y d
      = (⟨200, .msgObj "Note updated successfully"⟩,
         ⟨d.rows.map (fun r => if r.id == id2 && r.sess == sess
             then { r with title := .jstr "(無標題)", content := cv } else r),
          d.log ++ [.update id2 sess]⟩) := by
  have hune : (u == "") = false := by simp [hu]
  have hsne : (sess == "") = false := by simp [hs]
  have hchb : ((d.rows.filter (fun r => r.id == id2 && r.sess == sess)).length == 0) = false :=
    beq_eq_false_iff_ne.mpr hch
  constructor
  · rcases hb with hb | hb <;>
      simp [worker_handleUpdateNote, hdrOk, hune, kvGet, hx, svTruthy, parseStored,
        jsNullish, hb]
  · rw [notes_onRequest_auth "PUT" sess hsne,
        show ([id2] : List String).head? = some id2 from rfl, notesSwitch_update, hchb]
    simp [jsOrElse]

/-- C4 witness: merge in the KV store and overwrite in the relational store at
concrete records. -/
theorem c4_update_merge_amended_witness :
    worker_handleUpdateNote ⟨"PUT", "", some "u", none, ⟨none, none⟩⟩
        ⟨[(kvKey "u" "i1", .good ⟨"i1", .jstr "c", 1, 1⟩)], []⟩ "i1" 9
      = .ok (⟨200, .kvNote ⟨"i1", .jstr "c", 1, 9⟩⟩,
             ⟨[(kvKey "u" "i1", .good ⟨"i1", .jstr "c", 1, 9⟩)],
              [.get "notes:u:i1", .put "notes:u:i1"]⟩) ∧
    notes_onRequest "PUT" (some "s") ["i2"] ⟨none, some (.jstr "c2")⟩ "x" 0
        ⟨[⟨"i2", "s", .jstr "T", .jstr "c", 3⟩], []⟩
      = (⟨200, .msgObj "Note updated successfully"⟩,
         ⟨[⟨"i2", "s", .jstr "(無標題)", .jstr "c2", 3⟩], [.update "i2" "s"]⟩) :=
  c4_update_merge_amended "u" "i1" (by decide)
    ⟨[(kvKey "u" "i1", .good ⟨"i1", .jstr "c", 1, 1⟩)], []⟩ ⟨"i1", .jstr "c", 1, 1⟩
    ⟨none, none⟩ 9 rfl (Or.inl rfl) "s" "i2" (by decide)
    ⟨[⟨"i2", "s", .jstr "T", .jstr "c", 3⟩], []⟩ (.jstr "c2") "x" 0 (by decide)

/-- C5 (amended): under a successful update, `id`, scope and creation time are
invariant in both variants; beyond that, the KV variant rebuilds only
`content` and `updatedAt`, while the relational variant rewrites `title` and
`content`. -/
theorem c5_update_frame_amended
    (u nid : String) (hu : u ≠ "") (st : KVState) (n : KVNote) (b : ReqBody) (now : Nat)
    (hx : lookupVal st (kvKey u nid) = some (.good n))
    (sess id2 : String) (hs : sess ≠ "") (d : DState) (tv : Option JsVal) (cv : JsVal)
    (x : String) (y : Nat) :
    worker_handleUpdateNote ⟨"PUT", "", some u, none, b⟩ st nid now
      = .ok (⟨200, .kvNote ⟨n.id, jsNullish b.content n.content, n.createdAt, now⟩⟩,
             kvPut { st with log := st.log ++ [.get (kvKey u nid)] } (kvKey u nid)
               (.good ⟨n.id, jsNullish b.content n.content, n.createdAt, now⟩)) ∧
    ((notes_onRequest "PUT" (some sess) [id2] ⟨tv, some cv⟩ x y d).2.rows.map
        (fun r => (r.id, r.sess, r.created_at)))
      = d.rows.map (fun r => (r.id, r.sess, r.created_at)) := by
  have hune : (u == "") = false := by simp [hu]
  have hsne : (sess == "") = false := by simp [hs]
  constructor
  · simp [worker_handleUpdateNote, hdrOk, hune, kvGet, hx, svTruthy, parseStored]
  · rw [notes_onRequest_auth "PUT" sess hsne,
        show ([id2] : List String).head? = some id2 from rfl, notesSwitch_update]
    simp only [List.map_map]
    apply List.map_congr_left
    intro r _
    by_cases hr : r.id = id2 ∧ r.sess = sess
    · simp [hr]
    · simp [hr]

/-- C5 witness: the frame property at concrete records. -/
theorem c5_update_frame_amended_witness :
    worker_handleUpdateNote ⟨"PUT", "", some "u", none, ⟨none, some (.jstr "z")⟩⟩
        ⟨[(kvKey "u" "i1", .good ⟨"i1", .jstr "c", 1, 1⟩)], []⟩ "i1" 9
      = .ok (⟨200, .kvNote ⟨"i1", .jstr "z", 1, 9⟩⟩,
             ⟨[(kvKey "u" "i1", .good ⟨"i1", .jstr "z", 1, 9⟩)],
              [.get "notes:u:i1", .put "notes:u:i1"]⟩) ∧
    ((notes_onRequest "PUT" (some "s") ["i2"] ⟨some (.jstr "W"), some (.jstr "q")⟩ "x" 0
        ⟨[⟨"i2", "s", .jstr "T", .jstr "c", 3⟩], []⟩).2.rows.map
        (fun r => (r.id, r.sess, r.created_at)))
      = ([⟨"i2", "s", .jstr "T", .jstr "c", 3⟩] : List Row).map
          (fun r => (r.id, r.sess, r.created_at)) :=
  c5_update_frame_amended "u" "i1" (by decide)
    ⟨[(kvKey "u" "i1", .good ⟨"i1", .jstr "c", 1, 1⟩)], []⟩ ⟨"i1", .jstr "c", 1, 1⟩
    ⟨none, some (.jstr "z")⟩ 9 rfl "s" "i2" (by decide)
    ⟨[⟨"i2", "s", .jstr "T", .jstr "c", 3⟩], []⟩ (some (.jstr "W")) (.jstr "q") "x" 0

/-- C6 (amended): a successful PUT returns 200 in both variants, but the
success payloads differ: the KV variant returns the updated note record, the
relational variant a fixed message object. -/
theorem c6_put_payload_amended
    (u nid : String) (hu : u ≠ "") (st : KVState) (n : KVNote) (b : ReqBody) (now : Nat)
    (hx : lookupVal st (kvKey u nid) = some (.good n))
    (sess id2 : String) (hs : sess ≠ "") (d : DState) (tv : Option JsVal) (cv : JsVal)
    (x : String) (y : Nat)
    (hch : (d.rows.filter (fun r => r.id == id2 && r.sess == sess)).length ≠ 0) :
    Except.map Prod.fst (worker_handleUpdateNote ⟨"PUT", "", some u, none, b⟩ st nid now)
      = .ok ⟨200, .kvNote ⟨n.id, jsNullish b.content n.content, n.createdAt, now⟩⟩ ∧
    (notes_onRequest "PUT" (some sess) [id2] ⟨tv, some cv⟩ x y d).1
      = ⟨200, .msgObj "Note updated successfully"⟩ := by
  have hune : (u == "") = false := by simp [hu]
  have hsne : (sess == "") = false := by simp [hs]
  have hchb : ((d.rows.filter (fun r => r.id == id2 && r.sess == sess)).length == 0) = false :=
    beq_eq_false_iff_ne.mpr hch
  constructor
  · simp [worker_handleUpdateNote, hdrOk, hune, kvGet, hx, svTruthy, parseStored,
      Except.map]
  · rw [notes_onRequest_auth "PUT" sess hsne,
        show ([id2] : List String).head? = some id2 from rfl, notesSwitch_update, hchb]
    simp

/-- C6 witness: the two success payload shapes at concrete records. -/
theorem c6_put_payload_amended_witness :
    Except.map Prod.fst (worker_handleUpdateNote ⟨"PUT", "", some "u", none, ⟨none, none⟩⟩
        ⟨[(kvKey "u" "i1", .good ⟨"i1", .jstr "c", 1, 1⟩)], []⟩ "i1" 9)
      = .ok ⟨200, .kvNote ⟨"i1", .jstr "c", 1, 9⟩⟩ ∧
    (notes_onRequest "PUT" (some "s") ["i2"] ⟨none, some (.jstr "q")⟩ "x" 0
        ⟨[⟨"i2", "s", .jstr "T", .jstr "c", 3⟩], []⟩).1
      = ⟨200, .msgObj "Note updated successfully"⟩ :=
  c6_put_payload_amended "u" "i1" (by decide)
    ⟨[(kvKey "u" "i1", .good ⟨"i1", .jstr "c", 1, 1⟩)], []⟩ ⟨"i1", .jstr "c", 1, 1⟩
    ⟨none, none⟩ 9 rfl "s" "i2" (by decide)
    ⟨[⟨"i2", "s", .jstr "T", .jstr "c", 3⟩], []⟩ none (.jstr "q") "x" 0 (by decide)

/-- C8 (amended): the KV variants answer 400 to a POST whose `content` is
missing or not a string and leave the backend untouched; the relational
variant does not validate — a supplied non-string `content` is inserted and
answered 201, and an absent `content` surfaces as a backend type fault (500). -/
theorem c8_post_validation_amended
    (u : String) (hu : u ≠ "") (b : ReqBody) (st : KVState) (newId : String) (now : Nat)
    (hbad : ∀ s, b.content ≠ some (.jstr s))
    (sess : String) (hsess : sess ≠ "") (d : DState) (ps : List String) (v : JsVal) :
    worker_handleCreateNote ⟨"POST", "/api/notes", some u, none, b⟩ st newId now
      = .ok (⟨400, .errObj "內容必須是字串"⟩, st) ∧
    p000_handleCreateNote b st u newId now = (⟨400, .errObj "內容必須是字串"⟩, st) ∧
    (b.content = some v →
      notes_onRequest "POST" (some sess) ps b newId now d
        = (⟨201, .created newId b.title b.content now⟩,
           ⟨d.rows ++ [⟨newId, sess, jsOrElse b.title (.jstr "(無標題)"), v, now⟩],
            d.log ++ [.insert newId sess]⟩)) ∧
    (b.content = none →
      notes_onRequest "POST" (some sess) ps b newId now d
        = (⟨500, .msgObj ("Database error: " ++ d1TypeErr)⟩, d)) := by
  have hune : (u == "") = false := by simp [hu]
  have hsne : (sess == "") = false := by simp [hsess]
  obtain ⟨tv0, cv0⟩ := b
  refine ⟨?_, ?_, ?_, ?_⟩
  · rcases cv0 with _ | v2
    · simp [worker_handleCreateNote, hdrOk, hune]
    · cases v2 with
      | jstr s2 => exact absurd rfl (hbad s2)
      | jnum k => simp [worker_handleCreateNote, hdrOk, hune]
      | jbool bb => simp [worker_handleCreateNote, hdrOk, hune]
      | jnull => simp [worker_handleCreateNote, hdrOk, hune]
  · rcases cv0 with _ | v2
    · rfl
    · cases v2 with
      | jstr s2 => exact absurd rfl (hbad s2)
      | jnum k => rfl
      | jbool bb => rfl
      | jnull => rfl
  · intro hc
    obtain rfl : cv0 = some v := hc
    rw [notes_onRequest_auth "POST" sess hsne, notesSwitch_create]
  · intro hc
    obtain rfl : cv0 = none := hc
    rw [notes_onRequest_auth "POST" sess hsne, notesSwitch_create_undef]

/-- C8 witness: a numeric `content` is rejected by the KV variants and
inserted by the relational one. -/
theorem c8_post_validation_amended_witness :
    worker_handleCreateNote ⟨"POST", "/api/notes", some "u", none, ⟨none, some (.jnum 5)⟩⟩
        ⟨[], []⟩ "n" 0
      = .ok (⟨400, .errObj "內容必須是字串"⟩, ⟨[], []⟩) ∧
    p000_handleCreateNote ⟨none, some (.jnum 5)⟩ ⟨[], []⟩ "u" "n" 0
      = (⟨400, .errObj "內容必須是字串"⟩, ⟨[], []⟩) ∧
    ((⟨none, some (.jnum 5)⟩ : ReqBody).content = some (.jnum 5) →
      notes_onRequest "POST" (some "s") [] ⟨none, some (.jnum 5)⟩ "n" 0 ⟨[], []⟩
        = (⟨201, .created "n" none (some (.jnum 5)) 0⟩,
           ⟨[⟨"n", "s", .jstr "(無標題)", .jnum 5, 0⟩], [.insert "n" "s"]⟩)) ∧
    ((⟨none, some (.jnum 5)⟩ : ReqBody).content = none →
      notes_onRequest "POST" (some "s") [] ⟨none, some (.jnum 5)⟩ "n" 0 ⟨[], []⟩
        = (⟨500, .msgObj ("Database error: " ++ d1TypeErr)⟩, ⟨[], []⟩)) :=
  c8_post_validation_amended "u" (by decide) ⟨none, some (.jnum 5)⟩ ⟨[], []⟩ "n" 0
    (fun s h => by cases h) "s" (by decide) ⟨[], []⟩ [] (.jnum 5)

/-- C9 (amended): only the relational standard worker yields the not-handled
sentinel for paths outside the API area; the Pages-Functions KV variant
answers them with a 404 API error, and the standard-worker KV variant answers
401 without a token or a 404 error with one. -/
theorem c9_passthrough_amended
    (m path : String) (sess tok : Option String) (b : ReqBody) (newId u : String)
    (now : Nat) (st : KVState) (d : DState)
    (hout : strStarts path "/api/" = false) (hu : u ≠ "") :
    notes_handleRequest m path sess b newId now d = none ∧
    notes_fetch m path sess b newId now d = none ∧
    worker_onRequest ⟨m, path, tok, sess, b⟩ st newId now
      = .ok (⟨404, .errObj "API 路由不存在或方法不允許"⟩, st) ∧
    p000_fetch ⟨m, path, some u, sess, b⟩ st newId now
      = .ok (⟨404, .errObj "找不到資源"⟩, st) := by
  have hune : (u == "") = false := by simp [hu]
  have hp1 : (path == "/api/notes") = false := by
    rw [beq_eq_false_iff_ne]
    intro he; subst he
    have hT : strStarts "/api/notes" "/api/" = true := by decide
    rw [hT] at hout; cases hout
  have hm : uuidMatch path = none := by
    cases hum : uuidMatch path with
    | none => rfl
    | some nid =>
      have hsx := uuidMatch_starts path nid hum
      have h2 := strStarts_trans path "/api/notes/" "/api/" (by decide) hsx
      rw [h2] at hout; cases hout
  have hdr : dRouteMatch path = none := by
    cases hdm : dRouteMatch path with
    | none => rfl
    | some r =>
      have hsx := dRouteMatch_starts path r hdm
      have h2 := strStarts_trans path "/api/notes" "/api/" (by decide) hsx
      rw [h2] at hout; cases hout
  refine ⟨?_, ?_, ?_, ?_⟩
  · simp [notes_handleRequest, hdr]
  · simp [notes_fetch, notes_handleRequest, hdr]
  · simp [worker_onRequest, hp1, hm]
  · simp [p000_fetch, hdrOk, hune, hp1, hm, p000_fallback, hout]

/-- C9 witness: the four behaviours at the concrete non-API path. -/
theorem c9_passthrough_amended_witness :
    notes_handleRequest "GET" "/index.html" none ⟨none, none⟩ "n" 0 ⟨[], []⟩ = none ∧
    notes_fetch "GET" "/index.html" none ⟨none, none⟩ "n" 0 ⟨[], []⟩ = none ∧
    worker_onRequest ⟨"GET", "/index.html", none, none, ⟨none, none⟩⟩ ⟨[], []⟩ "n" 0
      = .ok (⟨404, .errObj "API 路由不存在或方法不允許"⟩, ⟨[], []⟩) ∧
    p000_fetch ⟨"GET", "/index.html", some "u", none, ⟨none, none⟩⟩ ⟨[], []⟩ "n" 0
      = .ok (⟨404, .errObj "找不到資源"⟩, ⟨[], []⟩) :=
  c9_passthrough_amended "GET" "/index.html" none none ⟨none, none⟩ "n" "u" 0
    ⟨[], []⟩ ⟨[], []⟩ (by decide) (by decide)



theorem sep_free_no_pref (a : List Char) : ∀ (b y : List Char), ':' ∉ a → ':' ∉ b →
    a ≠ b → ¬ (b ++ [':']) <+: (a ++ ':' :: y) := by
  induction a with
  | nil =>
    intro b y _ hb hne hp
    cases b with
    | nil => exact hne rfl
    | cons d b' =>
      obtain ⟨t, ht⟩ := hp
      simp only [List.cons_append, List.nil_append, List.append_assoc] at ht
      injection ht with h1 _
      exact hb (by simp [h1])
  | cons c a' ih =>
    intro b y ha hb hne hp
    cases b with
    | nil =>
      obtain ⟨t, ht⟩ := hp
      simp only [List.nil_append, List.cons_append, List.singleton_append] at ht
      injection ht with h1 _
      exact ha (by simp [← h1])
    | cons d b' =>
      obtain ⟨t, ht⟩ := hp
      simp only [List.cons_append, List.append_assoc] at ht
      injection ht with h1 h2
      refine ih b' y (fun hm => ha (List.mem_cons_of_mem _ hm))
        (fun hm => hb (List.mem_cons_of_mem _ hm))
        (fun he => hne (by rw [h1, he])) ⟨t, ?_⟩
      simpa [List.append_assoc] using h2

theorem kvKey_data (u id : String) :
    (kvKey u id).data = "notes:".data ++ (u.data ++ ':' :: id.data) := by
  show ((("notes:" ++ u) ++ ":") ++ id).data = _
  rw [String.data_append, String.data_append, String.data_append,
      List.append_assoc, List.append_assoc]
  rfl

theorem kvPre_data (u : String) :
    (kvPre u).data = "notes:".data ++ (u.data ++ [':']) := by
  show (("notes:" ++ u) ++ ":").data = _
  rw [String.data_append, String.data_append, List.append_assoc]

theorem strStarts_kvKey_other (s1 s2 id : String) (h1 : ':' ∉ s1.data)
    (h2 : ':' ∉ s2.data) (hne : s1 ≠ s2) :
    strStarts (kvKey s1 id) (kvPre s2) = false := by
  rw [strStarts, Bool.eq_false_iff]
  intro hp
  rw [List.isPrefixOf_iff_prefix, kvKey_data, kvPre_data,
      List.prefix_append_right_inj] at hp
  exact sep_free_no_pref s1.data s2.data id.data h1 h2
    (fun he => hne (String.ext he)) hp

theorem kvKey_inj_scope (s1 s2 id : String) (hne : s1 ≠ s2) :
    kvKey s2 id ≠ kvKey s1 id := by
  intro he
  apply hne
  have hd := congrArg String.data he
  rw [kvKey_data, kvKey_data] at hd
  have hd2 := List.append_cancel_left hd
  have hd3 := List.append_cancel_right hd2
  exact (String.ext hd3).symm

theorem find?_filter_other (m : List (String × StoredVal)) (k k' : String) (h : k' ≠ k) :
    ((m.filter (fun e => !(e.1 == k))).find? (fun e => e.1 == k'))
      = m.find? (fun e => e.1 == k') := by
  have hkk : (k == k') = false := by rw [beq_eq_false_iff_ne]; exact fun hh => h hh.symm
  induction m with
  | nil => rfl
  | cons e m ih =>
    by_cases hek : e.1 = k
    · have h1 : (e.1 == k') = false := by rw [hek]; exact hkk
      simp [List.filter_cons, List.find?_cons, hek, h1, hkk, ih]
    · have h1 : (!(e.1 == k)) = true := by simp [hek]
      rw [List.filter_cons, if_pos h1, List.find?_cons, List.find?_cons]
      cases he' : (e.1 == k') with
      | true => rfl
      | false => exact ih

theorem lookupVal_kvPut_ne (st : KVState) (k : String) (v : StoredVal) (k' : String)
    (h : k' ≠ k) : lookupVal (kvPut st k v) k' = lookupVal st k' := by
  have hkk : (k == k') = false := by rw [beq_eq_false_iff_ne]; exact fun hh => h hh.symm
  simp only [lookupVal, kvPut, List.find?_cons, hkk]
  rw [find?_filter_other _ _ _ h]

theorem scanKeys_kvPut_miss (st : KVState) (k : String) (v : StoredVal) (pre : String)
    (h : strStarts k pre = false) :
    scanKeys (kvPut st k v) pre = scanKeys st pre := by
  simp only [scanKeys, kvPut, List.filter_cons, h, Bool.false_eq_true, if_false,
    List.filter_filter]
  congr 1
  apply List.filter_congr
  intro e _
  by_cases hek : e.1 = k
  · simp [hek, h]
  · simp [hek]

theorem mem_scanKeys_starts (st : KVState) (pre k' : String)
    (h : k' ∈ scanKeys st pre) : strStarts k' pre = true := by
  simp only [scanKeys, List.mem_map] at h
  obtain ⟨e, he, rfl⟩ := h
  exact (List.mem_filter.mp he).2

theorem notesLoop_fst_congr (keys : List String) :
    ∀ (stA stB : KVState) (acc : List KVNote),
    (∀ k ∈ keys, lookupVal stA k = lookupVal stB k) →
    Except.map Prod.fst (notesLoop stA keys acc)
      = Except.map Prod.fst (notesLoop stB keys acc) := by
  induction keys with
  | nil => intro stA stB acc _; rfl
  | cons k ks ih =>
    intro stA stB acc h
    have hk : lookupVal stA k = lookupVal stB k := h k (List.mem_cons_self _ _)
    have hks : ∀ k' ∈ ks, lookupVal stA k' = lookupVal stB k' :=
      fun k' hm => h k' (List.mem_cons_of_mem _ hm)
    rw [notesLoop, notesLoop]
    simp only [kvGet, hk]
    cases hv : lookupVal stB k with
    | none => exact ih _ _ acc hks
    | some sv =>
      cases sv with
      | good n =>
        simp only [svTruthy, Bool.not_true, Bool.false_eq_true, if_false, parseStored]
        exact ih _ _ (n :: acc) hks
      | bad s =>
        cases hs : (s == "") with
        | true =>
          simp only [svTruthy, hs, Bool.not_false, Bool.not_true, if_true]
          exact ih _ _ acc hks
        | false =>
          simp only [svTruthy, hs, Bool.not_false, Bool.not_true, Bool.false_eq_true,
            if_false, parseStored]

theorem listResp_congr (eA eB : Except String (List KVNote × KVState))
    (h : Except.map Prod.fst eA = Except.map Prod.fst eB) :
    Except.map Prod.fst
      (match eA with
        | .ok p => Except.ok (ε := String) ((⟨200, .kvNotes p.1⟩ : Response), p.2)
        | .error m => .error m)
      = Except.map Prod.fst
      (match eB with
        | .ok p => Except.ok (ε := String) ((⟨200, .kvNotes p.1⟩ : Response), p.2)
        | .error m => .error m) := by
  cases eA <;> cases eB <;> simp_all [Except.map]

theorem worker_list_resp (s2 : String) (hs2 : (s2 == "") = false)
    (stA stB : KVState) (req req' : Request)
    (hr : req.token = some s2) (hr' : req'.token = some s2)
    (hscan : scanKeys stA (kvPre s2) = scanKeys stB (kvPre s2))
    (hlook : ∀ k ∈ scanKeys stB (kvPre s2), lookupVal stA k = lookupVal stB k) :
    Except.map Prod.fst (worker_handleListNotes req stA)
      = Except.map Prod.fst (worker_handleListNotes req' stB) := by
  simp only [worker_handleListNotes, hdrOk, hr, hr', hs2, Bool.not_false, Bool.not_true,
    Bool.false_eq_true, if_false, Option.getD_some, kvScan, hscan]
  exact listResp_congr _ _ (notesLoop_fst_congr _ _ _ _ hlook)

/-- C1 (amended): scope isolation holds for distinct scopes that do not
contain the key-separator character `:` — a note created under `s1` leaves
the list response of `s2` unchanged, and update/delete under `s2` with the
created id answer 404 (in the prefix store the update/delete part needs no
separator condition, while list isolation fails for scopes containing `:`,
as the counterexample shows); in the relational store the whole property
holds for all distinct scopes, with the update issued with a well-formed
body. -/
theorem c1_scope_isolation_amended
    (s1 s2 id c : String) (st0 : KVState) (d0 : DState)
    (h1 : s1 ≠ "") (h2 : s2 ≠ "") (hc1 : ':' ∉ s1.data) (hc2 : ':' ∉ s2.data)
    (hne : s1 ≠ s2)
    (hfresh : lookupVal st0 (kvKey s2 id) = none)
    (hdfresh : d0.rows.filter (fun r => r.id == id && r.sess == s2) = [])
    (tb tv2 : Option JsVal) (bU bL : ReqBody) (cu tu : JsVal)
    (now y : Nat) (x : String) (pL mL : String) (sL : Option String)
    (d1 : DState)
    (hd1 : d1.rows = d0.rows ++ [⟨id, s1, jsOrElse tb (.jstr "(無標題)"), cu, now⟩]) :
    worker_handleCreateNote ⟨"POST", "/api/notes", some s1, none, ⟨none, some (.jstr c)⟩⟩
        st0 id now
      = .ok (⟨201, .kvNote ⟨id, .jstr c, now, now⟩⟩,
             kvPut st0 (kvKey s1 id) (.good ⟨id, .jstr c, now, now⟩)) ∧
    Except.map Prod.fst (worker_handleListNotes ⟨mL, pL, some s2, sL, bL⟩
        (kvPut st0 (kvKey s1 id) (.good ⟨id, .jstr c, now, now⟩)))
      = Except.map Prod.fst (worker_handleListNotes ⟨mL, pL, some s2, sL, bL⟩ st0) ∧
    Except.map Prod.fst (worker_handleUpdateNote ⟨"PUT", "", some s2, none, bU⟩
        (kvPut st0 (kvKey s1 id) (.good ⟨id, .jstr c, now, now⟩)) id y)
      = .ok ⟨404, .errObj "找不到要更新的筆記"⟩ ∧
    Except.map Prod.fst (worker_handleDeleteNote ⟨"DELETE", "", some s2, none, bU⟩
        (kvPut st0 (kvKey s1 id) (.good ⟨id, .jstr c, now, now⟩)) id)
      = .ok ⟨404, .errObj "找不到要刪除的筆記"⟩ ∧
    notes_onRequest "POST" (some s1) [] ⟨tb, some cu⟩ id now d0
      = (⟨201, .created id tb (some cu) now⟩,
         ⟨d0.rows ++ [⟨id, s1, jsOrElse tb (.jstr "(無標題)"), cu, now⟩],
          d0.log ++ [.insert id s1]⟩) ∧
    (notes_onRequest "GET" (some s2) [] bL x y d1).1
      = (notes_onRequest "GET" (some s2) [] bL x y d0).1 ∧
    (notes_onRequest "PUT" (some s2) [id] ⟨tv2, some tu⟩ x y d1).1
      = ⟨404, .msgObj "Note not found or you do not own this note."⟩ ∧
    (notes_onRequest "DELETE" (some s2) [id] bU x y d1).1
      = ⟨404, .msgObj "Note not found or you do not own this note."⟩ := by
  have hs1ne : (s1 == "") = false := by simp [h1]
  have hs2ne : (s2 == "") = false := by simp [h2]
  have hs12 : (s1 == s2) = false := beq_eq_false_iff_ne.mpr hne
  have hkeymiss : strStarts (kvKey s1 id) (kvPre s2) = false :=
    strStarts_kvKey_other s1 s2 id hc1 hc2 hne
  have hkne : kvKey s2 id ≠ kvKey s1 id := kvKey_inj_scope s1 s2 id hne
  have hmiss2 : lookupVal (kvPut st0 (kvKey s1 id) (.good ⟨id, .jstr c, now, now⟩))
      (kvKey s2 id) = none := by
    rw [lookupVal_kvPut_ne _ _ _ _ hkne]; exact hfresh
  have hdnew : d1.rows.filter (fun r => r.id == id && r.sess == s2) = [] := by
    rw [hd1, List.filter_append, hdfresh]
    simp [hs12]
  refine ⟨?_, ?_, ?_, ?_, ?_, ?_, ?_, ?_⟩
  · simp [worker_handleCreateNote, hdrOk, hs1ne]
  · refine worker_list_resp s2 hs2ne _ st0 _ _ rfl rfl
      (scanKeys_kvPut_miss st0 _ _ _ hkeymiss) ?_
    intro k hk
    refine lookupVal_kvPut_ne st0 _ _ k ?_
    intro he
    have hst := mem_scanKeys_starts st0 _ k hk
    rw [he, hkeymiss] at hst
    cases hst
  · simp [worker_handleUpdateNote, hdrOk, hs2ne, kvGet, hmiss2, Except.map]
  · simp [worker_handleDeleteNote, hdrOk, hs2ne, kvGet, hmiss2, Except.map]
  · rw [notes_onRequest_auth "POST" s1 hs1ne, notesSwitch_create]
  · rw [notes_onRequest_auth "GET" s2 hs2ne, notesSwitch_list,
        notes_onRequest_auth "GET" s2 hs2ne, notesSwitch_list]
    rw [hd1, List.filter_append]
    simp [hs12]
  · rw [notes_onRequest_auth "PUT" s2 hs2ne,
        show ([id] : List String).head? = some id from rfl, notesSwitch_update, hdnew]
    rfl
  · rw [notes_onRequest_auth "DELETE" s2 hs2ne,
        show ([id] : List String).head? = some id from rfl, notesSwitch_delete, hdnew]
    rfl


/-- C1 witness: the amended isolation at the concrete scopes `alice`/`bob`. -/
theorem c1_scope_isolation_amended_witness :
    worker_handleCreateNote ⟨"POST", "/api/notes", some "alice", none,
        ⟨none, some (.jstr "hi")⟩⟩ ⟨[], []⟩ "i1" 7
      = .ok (⟨201, .kvNote ⟨"i1", .jstr "hi", 7, 7⟩⟩,
             kvPut ⟨[], []⟩ (kvKey "alice" "i1") (.good ⟨"i1", .jstr "hi", 7, 7⟩)) ∧
    Except.map Prod.fst (worker_handleListNotes
        ⟨"GET", "/api/notes", some "bob", none, ⟨none, none⟩⟩
        (kvPut ⟨[], []⟩ (kvKey "alice" "i1") (.good ⟨"i1", .jstr "hi", 7, 7⟩)))
      = Except.map Prod.fst (worker_handleListNotes
        ⟨"GET", "/api/notes", some "bob", none, ⟨none, none⟩⟩ ⟨[], []⟩) ∧
    Except.map Prod.fst (worker_handleUpdateNote ⟨"PUT", "", some "bob", none, ⟨none, none⟩⟩
        (kvPut ⟨[], []⟩ (kvKey "alice" "i1") (.good ⟨"i1", .jstr "hi", 7, 7⟩)) "i1" 8)
      = .ok ⟨404, .errObj "找不到要更新的筆記"⟩ ∧
    Except.map Prod.fst (worker_handleDeleteNote ⟨"DELETE", "", some "bob", none, ⟨none, none⟩⟩
        (kvPut ⟨[], []⟩ (kvKey "alice" "i1") (.good ⟨"i1", .jstr "hi", 7, 7⟩)) "i1")
      = .ok ⟨404, .errObj "找不到要刪除的筆記"⟩ ∧
    notes_onRequest "POST" (some "alice") [] ⟨none, some (.jstr "m")⟩ "i1" 7 ⟨[], []⟩
      = (⟨201, .created "i1" none (some (.jstr "m")) 7⟩,
         ⟨[⟨"i1", "alice", .jstr "(無標題)", .jstr "m", 7⟩], [.insert "i1" "alice"]⟩) ∧
    (notes_onRequest "GET" (some "bob") [] ⟨none, none⟩ "x" 8
        ⟨[⟨"i1", "alice", .jstr "(無標題)", .jstr "m", 7⟩], []⟩).1
      = (notes_onRequest "GET" (some "bob") [] ⟨none, none⟩ "x" 8 ⟨[], []⟩).1 ∧
    (notes_onRequest "PUT" (some "bob") ["i1"] ⟨none, some (.jstr "w")⟩ "x" 8
        ⟨[⟨"i1", "alice", .jstr "(無標題)", .jstr "m", 7⟩], []⟩).1
      = ⟨404, .msgObj "Note not found or you do not own this note."⟩ ∧
    (notes_onRequest "DELETE" (some "bob") ["i1"] ⟨none, none⟩ "x" 8
        ⟨[⟨"i1", "alice", .jstr "(無標題)", .jstr "m", 7⟩], []⟩).1
      = ⟨404, .msgObj "Note not found or you do not own this note."⟩ :=
  c1_scope_isolation_amended "alice" "bob" "i1" "hi" ⟨[], []⟩ ⟨[], []⟩
    (by decide) (by decide) (by decide) (by decide) (by decide) rfl rfl
    none none ⟨none, none⟩ ⟨none, none⟩ (.jstr "m") (.jstr "w") 7 8 "x"
    "/api/notes" "GET" none ⟨[⟨"i1", "alice", .jstr "(無標題)", .jstr "m", 7⟩], []⟩ rfl

end NotesSpec
